import Mathlib

/-!
Verification development for the tensoria gateway (src/api).

The Python sources are shallowly embedded: each backend HTTP interaction is
represented by an explicit outcome value (success body, non-2xx status,
connection error, timeout, unparseable body), exceptions are represented by
an `Except` over an explicit exception type mirroring the exception classes
of src/api/ollama_client.py, and the route handlers and streaming generators
of src/api/routes are total functions from those outcomes to structured
HTTP results and server-sent-event traces.
-/

namespace Tensoria

/-- Python `s.split(sep)[0]` for `sep = ":"`: the part of `s` before the
first colon (`s` itself when no colon occurs).  Used by the model-existence
pre-check in src/api/ollama_client.py lines 120-121. -/
def splitColonHead (s : String) : String :=
  String.mk (s.toList.takeWhile (fun c => c ≠ ':'))

/-- One entry of the backend tag list (`/api/tags`), as consumed by
`OllamaClient`: a JSON object whose `name` key may be absent
(`m.get("name")` / `m.get("name", "")`). -/
structure ModelDesc where
  name : Option String
deriving Repr, DecidableEq

/-- Body of a 2xx `/api/tags` response: `result.get("models", [])` treats a
missing `models` key as the empty list. -/
structure TagsBody where
  models : Option (List ModelDesc)
deriving Repr, DecidableEq

/-- The Python exception values that can cross the Connector boundary.
`modelNotFoundError`, `ollamaConnectionError` and `ollamaError` mirror the
`OllamaError` class hierarchy of src/api/ollama_client.py; `httpStatusError`
is a raw `httpx.HTTPStatusError` escaping uncaught (it is NOT a subclass of
`OllamaError`); `runtimeError` is a Python `RuntimeError`, raised by httpx
when a request is attempted on a closed client; `typeError` is a Python
`TypeError`, raised by `secrets.compare_digest` on non-ASCII str arguments;
`otherError` stands for any other uncaught exception such as a JSON decode
failure. -/
inductive PyExc where
  | modelNotFoundError (model : String)
  | ollamaConnectionError (msg : String)
  | ollamaError (msg : String)
  | httpStatusError (status : Nat)
  | runtimeError (msg : String)
  | typeError (msg : String)
  | otherError (msg : String)
deriving Repr, DecidableEq

/-- `isinstance(e, OllamaError)`: true exactly for the three members of the
`OllamaError` hierarchy. -/
def PyExc.isOllamaError : PyExc → Bool
  | .modelNotFoundError _ => true
  | .ollamaConnectionError _ => true
  | .ollamaError _ => true
  | _ => false

/-- Message text of `ModelNotFoundError(model)` (src/api/ollama_client.py
line 22, quote characters elided). -/
def modelNotFoundMessage (model : String) : String :=
  "Model " ++ model ++ " is not installed. Install it with: docker exec -it tensoria-ollama ollama pull " ++ model

/-- `str(e)` for each embedded exception value. -/
def PyExc.message : PyExc → String
  | .modelNotFoundError m => modelNotFoundMessage m
  | .ollamaConnectionError s => s
  | .ollamaError s => s
  | .httpStatusError s => "HTTP status error " ++ toString s
  | .runtimeError s => s
  | .typeError s => s
  | .otherError s => s

/-- Outcome of one unary HTTP exchange with the backend, as seen by
`OllamaClient._request`.  `ok body` is a 2xx response with parseable JSON
body; `badJson` a 2xx response whose body fails to parse; `httpStatus s` a
response with unsuccessful (non-2xx) status `s`; `connectError` a TCP/DNS
level failure; `timeout` an exceeded timeout budget. -/
inductive UnaryOutcome (α : Type) where
  | ok (body : α)
  | badJson
  | httpStatus (status : Nat)
  | connectError
  | timeout
deriving Repr, DecidableEq

/-- `httpStatus` carries only unsuccessful statuses; the other constructors
are unconstrained. -/
def UnaryOutcome.wf : UnaryOutcome α → Prop
  | .httpStatus s => s < 200 ∨ 300 ≤ s
  | _ => True

/-- `OllamaClient._request` in unary mode (src/api/ollama_client.py lines
38-70): a 404 raises `ModelNotFoundError` with the model taken from the
request payload (default `"unknown"`); any other unsuccessful status is
caught via `raise_for_status` and re-raised as `OllamaError`; a connection
failure raises `OllamaConnectionError`; a timeout raises `OllamaError`; a
JSON decode failure on a 2xx body is not caught by any clause and escapes
as-is. -/
def unaryRequest (modelField : Option String) : UnaryOutcome α → Except PyExc α
  | .ok body => .ok body
  | .badJson => .error (.otherError "JSONDecodeError")
  | .httpStatus s =>
      if s = 404 then .error (.modelNotFoundError (modelField.getD "unknown"))
      else .error (.ollamaError "Ollama error")
  | .connectError => .error (.ollamaConnectionError "Cannot connect to Ollama")
  | .timeout => .error (.ollamaError "Timeout waiting for Ollama response")

/-- `OllamaClient.list_models` (src/api/ollama_client.py lines 98-104):
`GET /api/tags` with no JSON payload; only `OllamaConnectionError` is caught
and collapsed to the empty list; every other exception propagates. -/
def OllamaClient.list_models (tags : UnaryOutcome TagsBody) : Except PyExc (List ModelDesc) :=
  match unaryRequest none tags with
  | .ok body => .ok (body.models.getD [])
  | .error (.ollamaConnectionError _) => .ok []
  | .error e => .error e

/-- Outcome of the raw health-check GET (src/api/ollama_client.py lines
86-96); the body is never parsed, only the status code is inspected. -/
inductive HealthOutcome where
  | response (status : Nat)
  | connectError
  | timeout
  | otherFailure
deriving Repr, DecidableEq

/-- `OllamaClient.health_check`: returns `status == 200` for any received
response and collapses every exception to `false` (bare `except Exception`). -/
def OllamaClient.health_check : HealthOutcome → Bool
  | .response s => s == 200
  | _ => false

/-- Chat roles admitted by the pydantic request model
(`Literal["system", "user", "assistant"]`, src/api/models.py line 15). -/
inductive Role where
  | system
  | user
  | assistant
deriving Repr, DecidableEq

/-- A request-side chat message (src/api/models.py lines 13-16). -/
structure ChatMessage where
  role : Role
  content : String
deriving Repr, DecidableEq

/-- The nested `options` object of a backend payload
(src/api/ollama_client.py lines 130-140): `num_predict` and `stop` are
present only when set. -/
structure ChatOptions where
  temperature : Rat
  top_p : Rat
  num_predict : Option Nat
  stop : Option (List String)
deriving Repr, DecidableEq

/-- Backend payload of `OllamaClient.chat` (src/api/ollama_client.py lines
126-140). -/
structure ChatPayload where
  model : String
  messages : List ChatMessage
  stream : Bool
  options : ChatOptions
deriving Repr, DecidableEq

/-- Backend payload of `OllamaClient.generate` (src/api/ollama_client.py
lines 167-181). -/
structure GeneratePayload where
  model : String
  prompt : String
  stream : Bool
  options : ChatOptions
deriving Repr, DecidableEq

/-- Python truthiness of the optional `max_tokens` int: `None` and `0` are
falsy. -/
def natTruthy : Option Nat → Bool
  | none => false
  | some n => n != 0

/-- Python truthiness of the optional `stop` list: `None` and `[]` are
falsy. -/
def listTruthy : Option (List String) → Bool
  | none => false
  | some l => !l.isEmpty

/-- Payload construction in `OllamaClient.chat`: `num_predict` is set from
`max_tokens` under `if max_tokens:`, `stop` under `if stop:`. -/
def OllamaClient.chatPayload (model : String) (messages : List ChatMessage)
    (temperature top_p : Rat) (max_tokens : Option Nat)
    (stop : Option (List String)) (stream : Bool) : ChatPayload :=
  { model := model
    messages := messages
    stream := stream
    options :=
      { temperature := temperature
        top_p := top_p
        num_predict := if natTruthy max_tokens then max_tokens else none
        stop := if listTruthy stop then stop else none } }

/-- Payload construction in `OllamaClient.generate` (identical options
handling, single prompt field). -/
def OllamaClient.generatePayload (model : String) (prompt : String)
    (temperature top_p : Rat) (max_tokens : Option Nat)
    (stop : Option (List String)) (stream : Bool) : GeneratePayload :=
  { model := model
    prompt := prompt
    stream := stream
    options :=
      { temperature := temperature
        top_p := top_p
        num_predict := if natTruthy max_tokens then max_tokens else none
        stop := if listTruthy stop then stop else none } }

/-- `model_names` of the pre-check: base names (text before the first
colon) of every installed model, with a missing `name` key read as `""`
(src/api/ollama_client.py line 120). -/
def installedBaseNames (models : List ModelDesc) : List String :=
  models.map (fun m => splitColonHead (m.name.getD ""))

/-- The model-existence pre-check condition of `OllamaClient.chat` /
`OllamaClient.generate` (src/api/ollama_client.py lines 119-124): the
request is resolvable iff the requested identifier stripped of its tag
occurs among installed base names, or the exact identifier occurs among
installed full names. -/
def modelResolvable (models : List ModelDesc) (model : String) : Bool :=
  (installedBaseNames models).contains (splitColonHead model)
    || (models.map (fun m => m.name)).contains (some model)

/-- Backend message object inside a unary `/api/chat` response or a chat
stream chunk: both `role` and `content` keys may be absent. -/
structure OllamaMessage where
  role : Option String
  content : Option String
deriving Repr, DecidableEq

/-- Body of a 2xx unary `/api/chat` response as read by the handler:
`message`, `prompt_eval_count` and `eval_count` keys may each be absent. -/
structure ChatBody where
  message : Option OllamaMessage
  prompt_eval_count : Option Nat
  eval_count : Option Nat
deriving Repr, DecidableEq

/-- Body of a 2xx unary `/api/generate` response as read by the handler. -/
structure GenerateBody where
  response : Option String
  prompt_eval_count : Option Nat
  eval_count : Option Nat
deriving Repr, DecidableEq

/-- One newline-delimited JSON chunk of a streamed `/api/chat` response. -/
structure ChatChunk where
  message : Option OllamaMessage
  done : Option Bool
deriving Repr, DecidableEq

/-- One newline-delimited JSON chunk of a streamed `/api/generate`
response. -/
structure GenerateChunk where
  response : Option String
  done : Option Bool
deriving Repr, DecidableEq

/-- The backend side of one streaming call: HTTP status of the streamed
response, the chunks its body would deliver (in order), and an optional
exception raised by the transport after the delivered chunks.  Under the
current Connector this state is never consulted (see `streamIteration`). -/
structure StreamBackend (χ : Type) where
  status : Nat
  chunks : List χ
  midError : Option PyExc
deriving Repr, DecidableEq

/-- Iterating the generator returned by `OllamaClient._request` in stream
mode (src/api/ollama_client.py lines 48-51 and 72-84): the `return
self._stream_request(client, ...)` executes inside
`async with httpx.AsyncClient(...) as client:`, so the client is closed
when `_request` returns and before the generator body first runs.  The
first iteration therefore enters `client.stream(...)`, which raises
`RuntimeError` on the closed client before any request reaches the
backend.  No chunk is ever yielded, the backend stream state `sb` is never
consulted, and `response.raise_for_status()` on line 81 is unreachable.
The result pairs the yielded chunks (none) with the exception ending the
iteration. -/
def streamIteration (sb : StreamBackend χ) : List χ × Option PyExc :=
  ([], some (.runtimeError "Cannot send a request, as the client has been closed."))

/-- `OllamaClient.chat` with `stream=False` (src/api/ollama_client.py lines
106-145): list installed models (a connection failure there collapses to
`[]`), run the existence pre-check, build the payload, then issue the unary
`POST /api/chat`. -/
def OllamaClient.chat (tags : UnaryOutcome TagsBody) (gen : UnaryOutcome ChatBody)
    (model : String) (messages : List ChatMessage) (temperature top_p : Rat)
    (max_tokens : Option Nat) (stop : Option (List String)) (stream : Bool) :
    Except PyExc ChatBody :=
  match OllamaClient.list_models tags with
  | .error e => .error e
  | .ok models =>
    if !(modelResolvable models model) then .error (.modelNotFoundError model)
    else
      let payload := OllamaClient.chatPayload model messages temperature top_p max_tokens stop stream
      unaryRequest (some payload.model) gen

/-- `OllamaClient.chat` with `stream=True`: same pre-check, but the unary
exchange is replaced by the lazy generator, whose iteration fails with the
closed-client `RuntimeError` (see `streamIteration`). -/
def OllamaClient.chatStream (tags : UnaryOutcome TagsBody) (sb : StreamBackend ChatChunk)
    (model : String) (messages : List ChatMessage) (temperature top_p : Rat)
    (max_tokens : Option Nat) (stop : Option (List String)) :
    Except PyExc (List ChatChunk × Option PyExc) :=
  match OllamaClient.list_models tags with
  | .error e => .error e
  | .ok models =>
    if !(modelResolvable models model) then .error (.modelNotFoundError model)
    else .ok (streamIteration sb)

/-- `OllamaClient.generate` with `stream=False` (src/api/ollama_client.py
lines 147-186): identical structure to `chat` over the generate endpoint. -/
def OllamaClient.generate (tags : UnaryOutcome TagsBody) (gen : UnaryOutcome GenerateBody)
    (model : String) (prompt : String) (temperature top_p : Rat)
    (max_tokens : Option Nat) (stop : Option (List String)) (stream : Bool) :
    Except PyExc GenerateBody :=
  match OllamaClient.list_models tags with
  | .error e => .error e
  | .ok models =>
    if !(modelResolvable models model) then .error (.modelNotFoundError model)
    else
      let payload := OllamaClient.generatePayload model prompt temperature top_p max_tokens stop stream
      unaryRequest (some payload.model) gen

/-- `OllamaClient.generate` with `stream=True`: same closed-client
iteration behavior as `OllamaClient.chatStream`. -/
def OllamaClient.generateStream (tags : UnaryOutcome TagsBody) (sb : StreamBackend GenerateChunk)
    (model : String) (prompt : String) (temperature top_p : Rat)
    (max_tokens : Option Nat) (stop : Option (List String)) :
    Except PyExc (List GenerateChunk × Option PyExc) :=
  match OllamaClient.list_models tags with
  | .error e => .error e
  | .ok models =>
    if !(modelResolvable models model) then .error (.modelNotFoundError model)
    else .ok (streamIteration sb)

/-- Pydantic `ChatCompletionRequest` (src/api/models.py lines 19-27),
sampling values as exact rationals. -/
structure ChatCompletionRequest where
  model : String
  messages : List ChatMessage
  temperature : Rat := 7/10
  max_tokens : Option Nat := none
  top_p : Rat := 1
  stream : Bool := false
  stop : Option (List String) := none
deriving Repr, DecidableEq

/-- Pydantic `CompletionRequest` (src/api/models.py lines 58-66). -/
structure CompletionRequest where
  model : String
  prompt : String
  temperature : Rat := 7/10
  max_tokens : Option Nat := none
  top_p : Rat := 1
  stream : Bool := false
  stop : Option (List String) := none
deriving Repr, DecidableEq

/-- The pydantic field validator `max_tokens: Optional[int] = Field(default=None, ge=1)`:
a supplied value is at least 1. -/
def maxTokensValid (max_tokens : Option Nat) : Prop :=
  ∀ n, max_tokens = some n → 1 ≤ n

/-- Response-side chat message: role arrives from the backend as a string
(defaulted to `"assistant"` when absent). -/
structure RespMessage where
  role : String
  content : String
deriving Repr, DecidableEq

/-- `ChatCompletionUsage` (src/api/models.py lines 37-41). -/
structure ChatCompletionUsage where
  prompt_tokens : Nat
  completion_tokens : Nat
  total_tokens : Nat
deriving Repr, DecidableEq

/-- One chat choice of a unary response (src/api/models.py lines 30-34). -/
structure ChatCompletionChoice where
  index : Nat
  message : RespMessage
  finish_reason : String
deriving Repr, DecidableEq

/-- Unary chat response body (src/api/models.py lines 44-51; the constant
`object` field and the stamped timestamp are elided). -/
structure ChatCompletionResponse where
  id : String
  model : String
  choices : List ChatCompletionChoice
  usage : ChatCompletionUsage
deriving Repr, DecidableEq

/-- One completion choice of a unary response (src/api/models.py lines
69-73). -/
structure CompletionChoice where
  index : Nat
  text : String
  finish_reason : String
deriving Repr, DecidableEq

/-- Unary completion response body (src/api/models.py lines 76-83). -/
structure CompletionResponse where
  id : String
  model : String
  choices : List CompletionChoice
  usage : ChatCompletionUsage
deriving Repr, DecidableEq

/-- The `{"message": ..., "type": ..., "code": ...}` error object used both
in HTTP error bodies and inline stream error events; stream events omit
`code` (src/api/models.py lines 131-135). -/
structure ErrorDetail where
  message : String
  type : String
  code : Option String
deriving Repr, DecidableEq

/-- Result of one request through a route handler: a 200 body, an
`HTTPException` with status and error detail, or an exception the handler
does not catch (surfacing as a generic server failure outside the routes). -/
inductive HandlerResult (α : Type) where
  | ok (resp : α)
  | httpError (status : Nat) (detail : ErrorDetail)
  | unhandled (e : PyExc)
deriving Repr, DecidableEq

/-- Message conversion at src/api/routes/chat.py line 47:
`[{"role": msg.role, "content": msg.content} for msg in request.messages]`. -/
def toOllamaMessages (msgs : List ChatMessage) : List ChatMessage :=
  msgs.map (fun m => { role := m.role, content := m.content })

/-- Response assembly of the unary chat handler (src/api/routes/chat.py
lines 67-88): absent backend message defaults role to `"assistant"` and
content to `""`; usage counts default to 0 and total is their sum. -/
def chatResponseOfBody (rid : String) (model : String) (body : ChatBody) :
    ChatCompletionResponse :=
  let response_message := body.message.getD { role := none, content := none }
  { id := rid
    model := model
    choices := [{ index := 0
                  message := { role := response_message.role.getD "assistant"
                               content := response_message.content.getD "" }
                  finish_reason := "stop" }]
    usage := { prompt_tokens := body.prompt_eval_count.getD 0
               completion_tokens := body.eval_count.getD 0
               total_tokens := body.prompt_eval_count.getD 0 + body.eval_count.getD 0 } }

/-- Response assembly of the unary completions handler
(src/api/routes/completions.py lines 62-77). -/
def completionResponseOfBody (rid : String) (model : String) (body : GenerateBody) :
    CompletionResponse :=
  { id := rid
    model := model
    choices := [{ index := 0
                  text := body.response.getD ""
                  finish_reason := "stop" }]
    usage := { prompt_tokens := body.prompt_eval_count.getD 0
               completion_tokens := body.eval_count.getD 0
               total_tokens := body.prompt_eval_count.getD 0 + body.eval_count.getD 0 } }

/-- The two `except` clauses shared by both unary handlers
(src/api/routes/chat.py lines 90-113, src/api/routes/completions.py lines
79-102): `ModelNotFoundError` becomes a 404 with code `model_not_found`,
any other `OllamaError` becomes a 500 with code `ollama_error`, anything
else is not caught. -/
def handlerCatch (α : Type) (e : PyExc) : HandlerResult α :=
  match e with
  | .modelNotFoundError m =>
      .httpError 404
        { message := PyExc.message (.modelNotFoundError m)
          type := "model_not_found"
          code := some "model_not_found" }
  | .ollamaConnectionError s =>
      .httpError 500 { message := s, type := "server_error", code := some "ollama_error" }
  | .ollamaError s =>
      .httpError 500 { message := s, type := "server_error", code := some "ollama_error" }
  | e => .unhandled e

/-- The unary branch of `chat_completions` (src/api/routes/chat.py lines
35-113), with the freshly generated response id passed in. -/
def chat_completions_unary (rid : String) (tags : UnaryOutcome TagsBody)
    (gen : UnaryOutcome ChatBody) (req : ChatCompletionRequest) :
    HandlerResult ChatCompletionResponse :=
  match OllamaClient.chat tags gen req.model (toOllamaMessages req.messages)
      req.temperature req.top_p req.max_tokens req.stop false with
  | .ok body => .ok (chatResponseOfBody rid req.model body)
  | .error e => handlerCatch ChatCompletionResponse e

/-- The unary branch of `completions` (src/api/routes/completions.py lines
33-102). -/
def completions_unary (rid : String) (tags : UnaryOutcome TagsBody)
    (gen : UnaryOutcome GenerateBody) (req : CompletionRequest) :
    HandlerResult CompletionResponse :=
  match OllamaClient.generate tags gen req.model req.prompt req.temperature req.top_p
      req.max_tokens req.stop false with
  | .ok body => .ok (completionResponseOfBody rid req.model body)
  | .error e => handlerCatch CompletionResponse e

/-- One server-sent event of the chat stream.  `chunkData` stands for the
wire event `data: {json}\n\n` built at src/api/routes/chat.py lines
133-146 (the delta is `{"content": c}` when the chunk content is nonempty
and the empty object otherwise); `doneSentinel` is the literal event
`data: [DONE]\n\n`; `errorEvent` is the inline `data: {"error": {...}}\n\n`
event. -/
inductive ChatStreamEvent where
  | chunkData (id : String) (model : String) (delta : Option String) (finish_reason : Option String)
  | doneSentinel
  | errorEvent (detail : ErrorDetail)
deriving Repr, DecidableEq, BEq

/-- One server-sent event of the completion stream
(src/api/routes/completions.py lines 119-138): the text field is always
present, possibly empty. -/
inductive CompletionStreamEvent where
  | chunkData (id : String) (model : String) (text : String) (finish_reason : Option String)
  | doneSentinel
  | errorEvent (detail : ErrorDetail)
deriving Repr, DecidableEq, BEq

/-- Translation of one backend chat chunk into its wire event
(src/api/routes/chat.py lines 130-146): content is
`chunk.get("message", \x7b\x7d).get("content", "")`, the delta is the empty
object when content is empty, and `finish_reason` is `"stop"` exactly on
the chunk marked done. -/
def chatChunkEvent (rid model : String) (c : ChatChunk) : ChatStreamEvent :=
  let content := ((c.message.getD { role := none, content := none }).content).getD ""
  let done := c.done.getD false
  .chunkData rid model (if content != "" then some content else none)
    (if done then some "stop" else none)

/-- Translation of one backend generate chunk (src/api/routes/completions.py
lines 119-135). -/
def completionChunkEvent (rid model : String) (c : GenerateChunk) : CompletionStreamEvent :=
  let content := c.response.getD ""
  let done := c.done.getD false
  .chunkData rid model content (if done then some "stop" else none)

/-- The event loop body of `stream_chat_response` (src/api/routes/chat.py
lines 121-149): each chunk yields its data event, and a chunk whose done
flag is truthy additionally yields the terminal sentinel; the loop then
continues with the remaining chunks. -/
def emitChatChunks (rid model : String) : List ChatChunk → List ChatStreamEvent
  | [] => []
  | c :: rest =>
      chatChunkEvent rid model c ::
        (if c.done.getD false then
          ChatStreamEvent.doneSentinel :: emitChatChunks rid model rest
        else emitChatChunks rid model rest)

/-- The event loop body of `stream_completion_response`
(src/api/routes/completions.py lines 110-138). -/
def emitCompletionChunks (rid model : String) : List GenerateChunk → List CompletionStreamEvent
  | [] => []
  | c :: rest =>
      completionChunkEvent rid model c ::
        (if c.done.getD false then
          CompletionStreamEvent.doneSentinel :: emitCompletionChunks rid model rest
        else emitCompletionChunks rid model rest)

/-- The `except` clauses of `stream_chat_response` (src/api/routes/chat.py
lines 151-166): `ModelNotFoundError` and `OllamaError` each append one
inline error event whose JSON carries only `message` and `type`; any other
exception is not caught and aborts the generator. -/
def chatStreamCatch (evs : List ChatStreamEvent) (e : PyExc) :
    List ChatStreamEvent × Option PyExc :=
  match e with
  | .modelNotFoundError m =>
      (evs ++ [.errorEvent { message := PyExc.message (.modelNotFoundError m)
                             type := "model_not_found"
                             code := none }], none)
  | .ollamaConnectionError s =>
      (evs ++ [.errorEvent { message := s, type := "server_error", code := none }], none)
  | .ollamaError s =>
      (evs ++ [.errorEvent { message := s, type := "server_error", code := none }], none)
  | e => (evs, some e)

/-- The `except` clauses of `stream_completion_response`
(src/api/routes/completions.py lines 140-155). -/
def completionStreamCatch (evs : List CompletionStreamEvent) (e : PyExc) :
    List CompletionStreamEvent × Option PyExc :=
  match e with
  | .modelNotFoundError m =>
      (evs ++ [.errorEvent { message := PyExc.message (.modelNotFoundError m)
                             type := "model_not_found"
                             code := none }], none)
  | .ollamaConnectionError s =>
      (evs ++ [.errorEvent { message := s, type := "server_error", code := none }], none)
  | .ollamaError s =>
      (evs ++ [.errorEvent { message := s, type := "server_error", code := none }], none)
  | e => (evs, some e)

/-- `stream_chat_response` (src/api/routes/chat.py lines 116-166) as a
function from the Connector call result to the full emitted event trace
plus the exception, if any, escaping the generator.  A failure of the
Connector call itself (before any chunk) and a failure after some chunks
are handled by the same `try` block. -/
def stream_chat_response (rid : String) (req : ChatCompletionRequest)
    (src : Except PyExc (List ChatChunk × Option PyExc)) :
    List ChatStreamEvent × Option PyExc :=
  match src with
  | .error e => chatStreamCatch [] e
  | .ok (chunks, merr) =>
      let evs := emitChatChunks rid req.model chunks
      match merr with
      | none => (evs, none)
      | some e => chatStreamCatch evs e

/-- `stream_completion_response` (src/api/routes/completions.py lines
105-155). -/
def stream_completion_response (rid : String) (req : CompletionRequest)
    (src : Except PyExc (List GenerateChunk × Option PyExc)) :
    List CompletionStreamEvent × Option PyExc :=
  match src with
  | .error e => completionStreamCatch [] e
  | .ok (chunks, merr) =>
      let evs := emitCompletionChunks rid req.model chunks
      match merr with
      | none => (evs, none)
      | some e => completionStreamCatch evs e

/-- Result of the auth guard `verify_api_key` (src/api/auth.py lines
24-72): the request proceeds with the returned key value, or it is
rejected with an `HTTPException`, or an exception escapes the guard
uncaught (surfacing outside it as a generic 500 server error). -/
inductive AuthResult where
  | allow (key : String)
  | reject (status : Nat) (detail : ErrorDetail)
  | uncaught (e : PyExc)
deriving Repr, DecidableEq

/-- Python truthiness of the optional header string: `None` and `""` are
falsy. -/
def strTruthy : Option String → Bool
  | none => false
  | some v => v != ""

/-- Whether every character of the string is ASCII.
`secrets.compare_digest` accepts str arguments only when both are pure
ASCII and raises `TypeError` otherwise. -/
def asciiOnly (s : String) : Bool :=
  s.toList.all (fun c => c.toNat < 128)

/-- `verify_api_key` (src/api/auth.py lines 24-72): an unconfigured key
(`settings.api_key` empty) allows every request; a falsy header value is
rejected as missing; otherwise `secrets.compare_digest(api_key,
settings.api_key)` runs: it raises `TypeError` when either string holds a
non-ASCII character (reachable, since header bytes are decoded latin-1 by
the server), which escapes the guard uncaught; with ASCII arguments it is
string equality in value, and inequality is rejected as invalid; otherwise
the key is returned. -/
def verify_api_key (configKey : String) (api_key : Option String) : AuthResult :=
  if configKey = "" then .allow "no-key-configured"
  else if !(strTruthy api_key) then
    .reject 401 { message := "API key is required"
                  type := "authentication_error"
                  code := some "missing_api_key" }
  else if !(asciiOnly (api_key.getD "") && asciiOnly configKey) then
    .uncaught (.typeError "comparing strings with non-ASCII characters is not supported")
  else if api_key.getD "" ≠ configKey then
    .reject 401 { message := "Invalid API key"
                  type := "authentication_error"
                  code := some "invalid_api_key" }
  else .allow (api_key.getD "")

/-- `ModelInfo` (src/api/models.py lines 90-95). -/
structure ModelInfo where
  id : String
  created : Nat
  owned_by : String
deriving Repr, DecidableEq

/-- The `GET /v1/models` handler (src/api/routes/models.py lines 16-47):
the Connector listing is mapped to OpenAI `ModelInfo` records and a bare
`except Exception` converts every failure into a 200 response with an
empty data list. -/
def list_models_route (now : Nat) (tags : UnaryOutcome TagsBody) :
    HandlerResult (List ModelInfo) :=
  match OllamaClient.list_models tags with
  | .ok models =>
      .ok (models.map (fun m => { id := m.name.getD "unknown", created := now, owned_by := "ollama" }))
  | .error _ => .ok []

/-- The `type` string the stream catch clauses put into the inline error
event: `model_not_found` for `ModelNotFoundError` and `server_error` for
every other caught `OllamaError`. -/
def streamErrorType : PyExc → String
  | .modelNotFoundError _ => "model_not_found"
  | _ => "server_error"

/-- Whether an event is the terminal `data: [DONE]\n\n` sentinel. -/
def ChatStreamEvent.isDoneSentinel : ChatStreamEvent → Bool
  | .doneSentinel => true
  | _ => false

/-- Whether an event is an inline error event. -/
def ChatStreamEvent.isErrorEvent : ChatStreamEvent → Bool
  | .errorEvent _ => true
  | _ => false

/-- Whether an event is the terminal `data: [DONE]\n\n` sentinel. -/
def CompletionStreamEvent.isDoneSentinel : CompletionStreamEvent → Bool
  | .doneSentinel => true
  | _ => false

/-- Whether an event is an inline error event. -/
def CompletionStreamEvent.isErrorEvent : CompletionStreamEvent → Bool
  | .errorEvent _ => true
  | _ => false

theorem chatChunkEvent_isDoneSentinel (rid model : String) (c : ChatChunk) :
    (chatChunkEvent rid model c).isDoneSentinel = false := rfl

theorem chatChunkEvent_isErrorEvent (rid model : String) (c : ChatChunk) :
    (chatChunkEvent rid model c).isErrorEvent = false := rfl

theorem completionChunkEvent_isDoneSentinel (rid model : String) (c : GenerateChunk) :
    (completionChunkEvent rid model c).isDoneSentinel = false := rfl

theorem completionChunkEvent_isErrorEvent (rid model : String) (c : GenerateChunk) :
    (completionChunkEvent rid model c).isErrorEvent = false := rfl

theorem emitChatChunks_all_notdone (rid model : String) {l : List ChatChunk}
    (h : ∀ c ∈ l, c.done.getD false = false) :
    emitChatChunks rid model l = l.map (chatChunkEvent rid model) := by
  induction l with
  | nil => rfl
  | cons c cs ih =>
      have hc : c.done.getD false = false := h c (List.mem_cons_self c cs)
      simp [emitChatChunks, hc, ih fun x hx => h x (List.mem_cons_of_mem c hx)]

theorem emitChatChunks_append (rid model : String) {l r : List ChatChunk}
    (h : ∀ c ∈ l, c.done.getD false = false) :
    emitChatChunks rid model (l ++ r) =
      l.map (chatChunkEvent rid model) ++ emitChatChunks rid model r := by
  induction l with
  | nil => rfl
  | cons c cs ih =>
      have hc : c.done.getD false = false := h c (List.mem_cons_self c cs)
      simp [emitChatChunks, hc, ih fun x hx => h x (List.mem_cons_of_mem c hx)]

theorem emitCompletionChunks_all_notdone (rid model : String) {l : List GenerateChunk}
    (h : ∀ c ∈ l, c.done.getD false = false) :
    emitCompletionChunks rid model l = l.map (completionChunkEvent rid model) := by
  induction l with
  | nil => rfl
  | cons c cs ih =>
      have hc : c.done.getD false = false := h c (List.mem_cons_self c cs)
      simp [emitCompletionChunks, hc, ih fun x hx => h x (List.mem_cons_of_mem c hx)]

theorem emitCompletionChunks_append (rid model : String) {l r : List GenerateChunk}
    (h : ∀ c ∈ l, c.done.getD false = false) :
    emitCompletionChunks rid model (l ++ r) =
      l.map (completionChunkEvent rid model) ++ emitCompletionChunks rid model r := by
  induction l with
  | nil => rfl
  | cons c cs ih =>
      have hc : c.done.getD false = false := h c (List.mem_cons_self c cs)
      simp [emitCompletionChunks, hc, ih fun x hx => h x (List.mem_cons_of_mem c hx)]

theorem filter_isDoneSentinel_map_chat (rid model : String) (l : List ChatChunk) :
    (l.map (chatChunkEvent rid model)).filter (fun e => e.isDoneSentinel) = [] := by
  induction l with
  | nil => rfl
  | cons c cs ih => simp [List.filter_cons, chatChunkEvent_isDoneSentinel, ih]

theorem filter_isErrorEvent_map_chat (rid model : String) (l : List ChatChunk) :
    (l.map (chatChunkEvent rid model)).filter (fun e => e.isErrorEvent) = [] := by
  induction l with
  | nil => rfl
  | cons c cs ih => simp [List.filter_cons, chatChunkEvent_isErrorEvent, ih]

theorem filter_isDoneSentinel_map_completion (rid model : String) (l : List GenerateChunk) :
    (l.map (completionChunkEvent rid model)).filter (fun e => e.isDoneSentinel) = [] := by
  induction l with
  | nil => rfl
  | cons c cs ih => simp [List.filter_cons, completionChunkEvent_isDoneSentinel, ih]

theorem filter_isErrorEvent_map_completion (rid model : String) (l : List GenerateChunk) :
    (l.map (completionChunkEvent rid model)).filter (fun e => e.isErrorEvent) = [] := by
  induction l with
  | nil => rfl
  | cons c cs ih => simp [List.filter_cons, completionChunkEvent_isErrorEvent, ih]

theorem getLast_append_pair {α : Type} (l : List α) (a b : α) :
    (l ++ [a, b]).getLast? = some b := by
  rw [show l ++ [a, b] = (l ++ [a]) ++ [b] by simp]
  exact List.getLast?_concat _

/-- C2: for every unary chat or completion response, the usage record
satisfies total_tokens = prompt_tokens + completion_tokens, for every
combination of present/absent backend count fields, where each absent
backend count (prompt_eval_count or eval_count) defaults to 0 before
summing. -/
theorem claim_c2_usage_total_is_sum :
    (∀ (rid : String) (tags : UnaryOutcome TagsBody) (gen : UnaryOutcome ChatBody)
        (req : ChatCompletionRequest) (resp : ChatCompletionResponse),
      chat_completions_unary rid tags gen req = .ok resp →
      resp.usage.total_tokens = resp.usage.prompt_tokens + resp.usage.completion_tokens) ∧
    (∀ (rid : String) (tags : UnaryOutcome TagsBody) (gen : UnaryOutcome GenerateBody)
        (req : CompletionRequest) (resp : CompletionResponse),
      completions_unary rid tags gen req = .ok resp →
      resp.usage.total_tokens = resp.usage.prompt_tokens + resp.usage.completion_tokens) := by
  constructor
  · intro rid tags gen req resp h
    unfold chat_completions_unary at h
    split at h
    · cases h
      rfl
    · rename_i e heq
      cases e <;> simp [handlerCatch] at h
  · intro rid tags gen req resp h
    unfold completions_unary at h
    split at h
    · cases h
      rfl
    · rename_i e heq
      cases e <;> simp [handlerCatch] at h

/-- C2 witness: a concrete unary chat run with both counts present. -/
theorem claim_c2_witness :
    (chatResponseOfBody "id" "m" { message := none, prompt_eval_count := some 3, eval_count := some 4 }).usage.total_tokens =
      (chatResponseOfBody "id" "m" { message := none, prompt_eval_count := some 3, eval_count := some 4 }).usage.prompt_tokens +
      (chatResponseOfBody "id" "m" { message := none, prompt_eval_count := some 3, eval_count := some 4 }).usage.completion_tokens :=
  claim_c2_usage_total_is_sum.1 "id" (.ok { models := some [{ name := some "m" }] })
    (.ok { message := none, prompt_eval_count := some 3, eval_count := some 4 })
    { model := "m", messages := [] }
    (chatResponseOfBody "id" "m" { message := none, prompt_eval_count := some 3, eval_count := some 4 })
    rfl

/-- C7 counterexample: on a timeout of the tag-list call, `list_models`
raises `OllamaError` to its caller instead of returning an empty sequence;
the claim that listModels never raises for any backend condition is false. -/
theorem claim_c7_counterexample :
    OllamaClient.list_models UnaryOutcome.timeout =
      .error (.ollamaError "Timeout waiting for Ollama response") := rfl

/-- C7 amended: healthCheck collapses every backend condition to a boolean
and never raises; listModels collapses only connection failures to the
empty list, while a timeout, an unsuccessful HTTP status or a malformed
payload raise to the caller (as `OllamaError`, `ModelNotFoundError` for a
404 tag-list status, or the uncaught JSON decode failure). -/
theorem claim_c7_amended (o : HealthOutcome) (s : Nat)
    (ho : o ≠ .response 200) (hs : s ≠ 404) :
    OllamaClient.health_check o = false ∧
    OllamaClient.list_models .connectError = .ok [] ∧
    OllamaClient.list_models .timeout =
      .error (.ollamaError "Timeout waiting for Ollama response") ∧
    OllamaClient.list_models (.httpStatus s) = .error (.ollamaError "Ollama error") ∧
    OllamaClient.list_models (.httpStatus 404) = .error (.modelNotFoundError "unknown") ∧
    OllamaClient.list_models .badJson = .error (.otherError "JSONDecodeError") := by
  refine ⟨?_, rfl, rfl, ?_, rfl, rfl⟩
  · cases o with
    | response st =>
        have hne : st ≠ 200 := fun h => ho (by rw [h])
        simp [OllamaClient.health_check, hne]
    | connectError => rfl
    | timeout => rfl
    | otherFailure => rfl
  · simp [OllamaClient.list_models, unaryRequest, hs]

/-- C7 amended witness: health check of a 500 response is false and a
connection failure during listing degrades to the empty list. -/
theorem claim_c7_amended_witness :
    OllamaClient.health_check (.response 500) = false ∧
    OllamaClient.list_models .connectError = .ok [] :=
  ⟨(claim_c7_amended (.response 500) 500 (by decide) (by decide)).1,
   (claim_c7_amended (.response 500) 500 (by decide) (by decide)).2.1⟩

/-- C9 counterexample: with key `"secret"` configured, the header present
with the empty value is rejected with code `missing_api_key` (Python
truthiness treats `""` as absent), and the header present with the
non-ASCII value `"é"` (reachable through latin-1 header decoding) makes
`secrets.compare_digest` raise `TypeError`, which escapes the guard as a
generic 500; in neither case is the present-but-unequal value answered
401 `invalid_api_key` as the claim requires. -/
theorem claim_c9_counterexample :
    verify_api_key "secret" (some "") =
      .reject 401 { message := "API key is required"
                    type := "authentication_error"
                    code := some "missing_api_key" } ∧
    verify_api_key "secret" (some "é") =
      .uncaught (.typeError "comparing strings with non-ASCII characters is not supported") ∧
    verify_api_key "secret" (some "é") ≠
      .reject 401 { message := "Invalid API key"
                    type := "authentication_error"
                    code := some "invalid_api_key" } := by
  refine ⟨rfl, rfl, by decide⟩

/-- C9 amended: when a key is configured, an absent header or a header
with the empty value is rejected with code missing_api_key; a non-empty
ASCII header value different from the (ASCII) key is rejected with code
invalid_api_key; a non-empty header value containing a non-ASCII
character makes compare_digest raise TypeError, which escapes the guard
uncaught (a generic 500, not a 401); the matching value passes; when no
key is configured every request passes regardless of the header. -/
theorem claim_c9_amended (cfg v w : String) (h : Option String)
    (hcfg : cfg ≠ "") (hcfga : asciiOnly cfg = true)
    (hv : v ≠ "") (hva : asciiOnly v = true) (hne : v ≠ cfg)
    (hw : w ≠ "") (hwa : asciiOnly w = false) :
    verify_api_key cfg none =
      .reject 401 { message := "API key is required"
                    type := "authentication_error"
                    code := some "missing_api_key" } ∧
    verify_api_key cfg (some "") =
      .reject 401 { message := "API key is required"
                    type := "authentication_error"
                    code := some "missing_api_key" } ∧
    verify_api_key cfg (some v) =
      .reject 401 { message := "Invalid API key"
                    type := "authentication_error"
                    code := some "invalid_api_key" } ∧
    verify_api_key cfg (some w) =
      .uncaught (.typeError "comparing strings with non-ASCII characters is not supported") ∧
    verify_api_key cfg (some cfg) = .allow cfg ∧
    verify_api_key "" h = .allow "no-key-configured" := by
  refine ⟨?_, ?_, ?_, ?_, ?_, rfl⟩
  · simp [verify_api_key, strTruthy, hcfg]
  · simp [verify_api_key, strTruthy, hcfg]
  · simp [verify_api_key, strTruthy, hcfg, hv, hva, hne, hcfga]
  · simp [verify_api_key, strTruthy, hcfg, hw, hwa]
  · simp [verify_api_key, strTruthy, hcfg, hcfga]

/-- C9 amended witness at concrete key and header values. -/
theorem claim_c9_amended_witness :
    verify_api_key "secret" none =
      .reject 401 { message := "API key is required"
                    type := "authentication_error"
                    code := some "missing_api_key" } ∧
    verify_api_key "secret" (some "") =
      .reject 401 { message := "API key is required"
                    type := "authentication_error"
                    code := some "missing_api_key" } ∧
    verify_api_key "secret" (some "wrong") =
      .reject 401 { message := "Invalid API key"
                    type := "authentication_error"
                    code := some "invalid_api_key" } ∧
    verify_api_key "secret" (some "é") =
      .uncaught (.typeError "comparing strings with non-ASCII characters is not supported") ∧
    verify_api_key "secret" (some "secret") = .allow "secret" ∧
    verify_api_key "" (some "whatever") = .allow "no-key-configured" :=
  claim_c9_amended "secret" "wrong" "é" (some "whatever") (by decide) (by decide)
    (by decide) (by decide) (by decide) (by decide) (by decide)

/-- C10: for every backend failure of any kind during model listing
(connection failure, timeout, unsuccessful HTTP status, or malformed
payload), the GET /v1/models route responds 200 with an empty data list
and never an error response. -/
theorem claim_c10_models_route_degrades (now : Nat) (tags : UnaryOutcome TagsBody)
    (h : ∀ b, tags ≠ .ok b) :
    list_models_route now tags = .ok [] := by
  cases tags with
  | ok b => exact absurd rfl (h b)
  | badJson => rfl
  | httpStatus s =>
      by_cases h4 : s = 404 <;>
        simp [list_models_route, OllamaClient.list_models, unaryRequest, h4]
  | connectError => rfl
  | timeout => rfl

/-- C10 witness: a connection failure yields the empty 200 listing. -/
theorem claim_c10_witness :
    list_models_route 0 UnaryOutcome.connectError = .ok [] :=
  claim_c10_models_route_degrades 0 .connectError
    (fun _ h => UnaryOutcome.noConfusion h)

/-- C5 counterexample: a unary chat request issued while the backend is
unreachable at the connection level is answered 404 `model_not_found`
(the pre-check sees the connection failure collapsed to an empty model
list), not 500 backend-unreachable as the claim requires. -/
theorem claim_c5_counterexample :
    chat_completions_unary "id" UnaryOutcome.connectError
        (.ok { message := none, prompt_eval_count := none, eval_count := none })
        { model := "mistral", messages := [] } =
      .httpError 404 { message := modelNotFoundMessage "mistral"
                       type := "model_not_found"
                       code := some "model_not_found" } ∧
    chat_completions_unary "id" UnaryOutcome.connectError
        (.ok { message := none, prompt_eval_count := none, eval_count := none })
        { model := "mistral", messages := [] } ≠
      .httpError 500 { message := "Cannot connect to Ollama"
                       type := "server_error"
                       code := some "ollama_error" } := by
  exact ⟨rfl, by decide⟩

/-- C5 amended: a connection-level failure of the generate call itself,
after the pre-check resolved the model, surfaces as
`OllamaConnectionError` mapped to 500 (code ollama_error); but a
connection failure during the pre-check list call manifests as
`ModelNotFound` mapped to 404, because `list_models` collapses it to an
empty installed list. -/
theorem claim_c5_amended (models : List ModelDesc) (rid : String)
    (req : ChatCompletionRequest) (creq : CompletionRequest)
    (gen : UnaryOutcome ChatBody) (genc : UnaryOutcome GenerateBody)
    (h1 : modelResolvable models req.model = true)
    (h2 : modelResolvable models creq.model = true) :
    chat_completions_unary rid (.ok { models := some models }) .connectError req =
      .httpError 500 { message := "Cannot connect to Ollama"
                       type := "server_error"
                       code := some "ollama_error" } ∧
    completions_unary rid (.ok { models := some models }) .connectError creq =
      .httpError 500 { message := "Cannot connect to Ollama"
                       type := "server_error"
                       code := some "ollama_error" } ∧
    chat_completions_unary rid .connectError gen req =
      .httpError 404 { message := modelNotFoundMessage req.model
                       type := "model_not_found"
                       code := some "model_not_found" } ∧
    completions_unary rid .connectError genc creq =
      .httpError 404 { message := modelNotFoundMessage creq.model
                       type := "model_not_found"
                       code := some "model_not_found" } := by
  refine ⟨?_, ?_, rfl, rfl⟩
  · simp [chat_completions_unary, OllamaClient.chat, OllamaClient.list_models,
      unaryRequest, handlerCatch, h1]
  · simp [completions_unary, OllamaClient.generate, OllamaClient.list_models,
      unaryRequest, handlerCatch, h2]

/-- C5 amended witness: with `mistral` installed, a connection failure of
the generate call yields the 500 error, and with the tag list itself
unreachable the same request yields the 404 error. -/
theorem claim_c5_amended_witness :
    chat_completions_unary "id" (.ok { models := some [{ name := some "mistral" }] })
        .connectError { model := "mistral", messages := [] } =
      .httpError 500 { message := "Cannot connect to Ollama"
                       type := "server_error"
                       code := some "ollama_error" } ∧
    chat_completions_unary "id" UnaryOutcome.connectError
        (.badJson) { model := "mistral", messages := [] } =
      .httpError 404 { message := modelNotFoundMessage "mistral"
                       type := "model_not_found"
                       code := some "model_not_found" } := by
  have h := claim_c5_amended [{ name := some "mistral" }] "id"
    { model := "mistral", messages := [] } { model := "mistral", prompt := "p" }
    .badJson .badJson rfl rfl
  exact ⟨h.1, h.2.2.1⟩

/-- C6 counterexample: with `mistral` installed (pre-check passes) and the
backend nominally answering the streamed chat call with HTTP 404, the
Connector does not raise `ModelNotFound`: the chunk iterator fails at its
first step with the closed-client `RuntimeError` (the client was closed
when `_request` returned the generator), before any request reaches the
backend; the stream pipeline does not catch it and emits no event at
all. -/
theorem claim_c6_counterexample :
    OllamaClient.chatStream (.ok { models := some [{ name := some "mistral" }] })
        { status := 404, chunks := [], midError := none } "mistral" [] 1 1 none none =
      .ok ([], some (.runtimeError "Cannot send a request, as the client has been closed.")) ∧
    stream_chat_response "id" { model := "mistral", messages := [] }
        (OllamaClient.chatStream (.ok { models := some [{ name := some "mistral" }] })
          { status := 404, chunks := [], midError := none } "mistral" [] 1 1 none none) =
      ([], some (.runtimeError "Cannot send a request, as the client has been closed.")) :=
  ⟨rfl, rfl⟩

/-- C6 amended: a backend 404 on the unary chat/generate call raises
`ModelNotFound` independent of the pre-check; in streaming mode the
404-to-ModelNotFound guarantee cannot hold at all, because the Connector
closes its HTTP client before returning the chunk generator: the first
iteration raises a closed-client `RuntimeError` before any request is
sent, no backend status is ever observed, and the stream pipeline does
not catch the error. -/
theorem claim_c6_amended (models : List ModelDesc) (model prompt : String)
    (msgs : List ChatMessage) (t pp : Rat) (mt : Option Nat) (st : Option (List String))
    (sb : StreamBackend ChatChunk)
    (h1 : modelResolvable models model = true) :
    OllamaClient.chat (.ok { models := some models }) (.httpStatus 404) model msgs t pp mt st false =
      .error (.modelNotFoundError model) ∧
    OllamaClient.generate (.ok { models := some models }) (.httpStatus 404) model prompt t pp mt st false =
      .error (.modelNotFoundError model) ∧
    streamIteration sb =
      ([], some (.runtimeError "Cannot send a request, as the client has been closed.")) ∧
    OllamaClient.chatStream (.ok { models := some models }) sb model msgs t pp mt st =
      .ok ([], some (.runtimeError "Cannot send a request, as the client has been closed.")) := by
  refine ⟨?_, ?_, rfl, ?_⟩
  · simp [OllamaClient.chat, OllamaClient.list_models, unaryRequest, h1,
      OllamaClient.chatPayload]
  · simp [OllamaClient.generate, OllamaClient.list_models, unaryRequest, h1,
      OllamaClient.generatePayload]
  · simp [OllamaClient.chatStream, OllamaClient.list_models, unaryRequest, h1,
      streamIteration]

/-- C6 amended witness at a concrete installed list and request. -/
theorem claim_c6_amended_witness :
    OllamaClient.chat (.ok { models := some [{ name := some "mistral" }] })
        (.httpStatus 404) "mistral" [] 1 1 none none false =
      .error (.modelNotFoundError "mistral") ∧
    streamIteration (χ := ChatChunk) { status := 404, chunks := [], midError := none } =
      ([], some (.runtimeError "Cannot send a request, as the client has been closed.")) := by
  have h := claim_c6_amended [{ name := some "mistral" }] "mistral" "p" [] 1 1 none none
    { status := 404, chunks := [], midError := none } rfl
  exact ⟨h.1, h.2.2.1⟩

/-- C8: the backend chat payload carries the request messages role-for-role
in order (so a synthetic backend echo of the payload message array returns
exactly the request role/content pairs); temperature and top_p are nested
under options; options.num_predict is present exactly when max_tokens was
supplied (given the pydantic ge=1 validation); options.stop is present
exactly when a non-empty stop list was supplied. -/
theorem claim_c8_payload_translation (req : ChatCompletionRequest)
    (hval : maxTokensValid req.max_tokens) :
    let p := OllamaClient.chatPayload req.model (toOllamaMessages req.messages)
      req.temperature req.top_p req.max_tokens req.stop req.stream
    p.messages.map (fun m => (m.role, m.content)) =
        req.messages.map (fun m => (m.role, m.content)) ∧
    p.model = req.model ∧
    p.options.temperature = req.temperature ∧
    p.options.top_p = req.top_p ∧
    p.options.num_predict = req.max_tokens ∧
    (p.options.stop.isSome ↔ ∃ l, req.stop = some l ∧ l ≠ []) := by
  intro p
  refine ⟨?_, rfl, rfl, rfl, ?_, ?_⟩
  · show (toOllamaMessages req.messages).map (fun m => (m.role, m.content)) =
      req.messages.map (fun m => (m.role, m.content))
    simp [toOllamaMessages]
  · show (if natTruthy req.max_tokens then req.max_tokens else none) = req.max_tokens
    cases hmt : req.max_tokens with
    | none => simp [natTruthy]
    | some n =>
        have h1 : 1 ≤ n := hval n hmt
        have h0 : n ≠ 0 := Nat.one_le_iff_ne_zero.mp h1
        simp [natTruthy, h0]
  · show (if listTruthy req.stop then req.stop else none).isSome ↔
      ∃ l, req.stop = some l ∧ l ≠ []
    cases hst : req.stop with
    | none => simp [listTruthy]
    | some l =>
        cases l with
        | nil => simp [listTruthy]
        | cons a as => simp [listTruthy]

/-- C8 witness: a two-message request with max_tokens 5 and a non-empty
stop list. -/
theorem claim_c8_witness :
    (OllamaClient.chatPayload "m"
        (toOllamaMessages [{ role := Role.system, content := "a" },
                           { role := Role.user, content := "b" }])
        1 1 (some 5) (some ["x"]) false).messages.map (fun m => (m.role, m.content)) =
      [({ role := Role.system, content := "a" } : ChatMessage),
       { role := Role.user, content := "b" }].map (fun m => (m.role, m.content)) ∧
    (OllamaClient.chatPayload "m"
        (toOllamaMessages [{ role := Role.system, content := "a" },
                           { role := Role.user, content := "b" }])
        1 1 (some 5) (some ["x"]) false).options.num_predict = some 5 := by
  have h := claim_c8_payload_translation
    { model := "m"
      messages := [{ role := Role.system, content := "a" },
                   { role := Role.user, content := "b" }]
      temperature := 1
      max_tokens := some 5
      top_p := 1
      stream := false
      stop := some ["x"] }
    (by intro n hn; cases hn; decide)
  exact ⟨h.1, h.2.2.2.2.1⟩

theorem chatStreamCatch_ollama (evs : List ChatStreamEvent) (e : PyExc)
    (he : e.isOllamaError = true) :
    chatStreamCatch evs e =
      (evs ++ [.errorEvent { message := e.message, type := streamErrorType e, code := none }],
       none) := by
  cases e <;>
    simp_all [chatStreamCatch, streamErrorType, PyExc.message, PyExc.isOllamaError]

theorem completionStreamCatch_ollama (evs : List CompletionStreamEvent) (e : PyExc)
    (he : e.isOllamaError = true) :
    completionStreamCatch evs e =
      (evs ++ [.errorEvent { message := e.message, type := streamErrorType e, code := none }],
       none) := by
  cases e <;>
    simp_all [completionStreamCatch, streamErrorType, PyExc.message, PyExc.isOllamaError]

/-- C1: for every chat or completion request naming a model that is not
resolvable against the installed-model list (exact full-name match and
stripped base-name match both fail), the Connector fails with
`ModelNotFound` carrying the requested identifier (no default model is
substituted); in unary mode the route answers 404 with code
model_not_found, and in streaming mode it emits exactly one error event
and no terminal sentinel. -/
theorem claim_c1_unresolvable_model_not_found
    (models : List ModelDesc) (rid : String)
    (req : ChatCompletionRequest) (creq : CompletionRequest)
    (gen : UnaryOutcome ChatBody) (genc : UnaryOutcome GenerateBody)
    (sb : StreamBackend ChatChunk) (sbc : StreamBackend GenerateChunk)
    (h1 : modelResolvable models req.model = false)
    (h2 : modelResolvable models creq.model = false) :
    OllamaClient.chat (.ok { models := some models }) gen req.model
        (toOllamaMessages req.messages) req.temperature req.top_p req.max_tokens req.stop false =
      .error (.modelNotFoundError req.model) ∧
    chat_completions_unary rid (.ok { models := some models }) gen req =
      .httpError 404 { message := modelNotFoundMessage req.model
                       type := "model_not_found"
                       code := some "model_not_found" } ∧
    stream_chat_response rid req
        (OllamaClient.chatStream (.ok { models := some models }) sb req.model
          (toOllamaMessages req.messages) req.temperature req.top_p req.max_tokens req.stop) =
      ([.errorEvent { message := modelNotFoundMessage req.model
                      type := "model_not_found"
                      code := none }], none) ∧
    OllamaClient.generate (.ok { models := some models }) genc creq.model creq.prompt
        creq.temperature creq.top_p creq.max_tokens creq.stop false =
      .error (.modelNotFoundError creq.model) ∧
    completions_unary rid (.ok { models := some models }) genc creq =
      .httpError 404 { message := modelNotFoundMessage creq.model
                       type := "model_not_found"
                       code := some "model_not_found" } ∧
    stream_completion_response rid creq
        (OllamaClient.generateStream (.ok { models := some models }) sbc creq.model creq.prompt
          creq.temperature creq.top_p creq.max_tokens creq.stop) =
      ([.errorEvent { message := modelNotFoundMessage creq.model
                      type := "model_not_found"
                      code := none }], none) := by
  refine ⟨?_, ?_, ?_, ?_, ?_, ?_⟩
  · simp [OllamaClient.chat, OllamaClient.list_models, unaryRequest, h1]
  · simp [chat_completions_unary, OllamaClient.chat, OllamaClient.list_models,
      unaryRequest, handlerCatch, PyExc.message, h1]
  · simp [stream_chat_response, OllamaClient.chatStream, OllamaClient.list_models,
      unaryRequest, chatStreamCatch, PyExc.message, h1]
  · simp [OllamaClient.generate, OllamaClient.list_models, unaryRequest, h2]
  · simp [completions_unary, OllamaClient.generate, OllamaClient.list_models,
      unaryRequest, handlerCatch, PyExc.message, h2]
  · simp [stream_completion_response, OllamaClient.generateStream, OllamaClient.list_models,
      unaryRequest, completionStreamCatch, PyExc.message, h2]

/-- C1 witness: `gpt-4` is not resolvable against an installed list holding
only `mistral`. -/
theorem claim_c1_witness :
    chat_completions_unary "id" (.ok { models := some [{ name := some "mistral" }] })
        (.ok { message := none, prompt_eval_count := none, eval_count := none })
        { model := "gpt-4", messages := [] } =
      .httpError 404 { message := modelNotFoundMessage "gpt-4"
                       type := "model_not_found"
                       code := some "model_not_found" } ∧
    stream_chat_response "id" { model := "gpt-4", messages := [] }
        (OllamaClient.chatStream (.ok { models := some [{ name := some "mistral" }] })
          { status := 200, chunks := [], midError := none } "gpt-4"
          (toOllamaMessages []) 1 1 none none) =
      ([.errorEvent { message := modelNotFoundMessage "gpt-4"
                      type := "model_not_found"
                      code := none }], none) ∧
    completions_unary "id" (.ok { models := some [{ name := some "mistral" }] })
        (.ok { response := none, prompt_eval_count := none, eval_count := none })
        { model := "gpt-4", prompt := "p" } =
      .httpError 404 { message := modelNotFoundMessage "gpt-4"
                       type := "model_not_found"
                       code := some "model_not_found" } := by
  have h := claim_c1_unresolvable_model_not_found
    [{ name := some "mistral" }] "id"
    { model := "gpt-4", messages := [] } { model := "gpt-4", prompt := "p" }
    (.ok { message := none, prompt_eval_count := none, eval_count := none })
    (.ok { response := none, prompt_eval_count := none, eval_count := none })
    { status := 200, chunks := [], midError := none }
    { status := 200, chunks := [], midError := none }
    rfl rfl
  exact ⟨h.2.1, h.2.2.1, h.2.2.2.2.1⟩

/-- C3: for every successful stream, well-formed in that the chunk marked
done is the final chunk delivered and no transport error follows, the
emitted event sequence is the translated data events in order followed by
exactly one terminal sentinel, which comes immediately after the
translated final data event and is the last event of the stream; nothing
escapes the generator. -/
theorem claim_c3_done_sentinel_terminal
    (rid : String) (req : ChatCompletionRequest) (creq : CompletionRequest)
    (body : List ChatChunk) (fin : ChatChunk)
    (bodyc : List GenerateChunk) (finc : GenerateChunk)
    (hb : ∀ c ∈ body, c.done.getD false = false)
    (hf : fin.done.getD false = true)
    (hbc : ∀ c ∈ bodyc, c.done.getD false = false)
    (hfc : finc.done.getD false = true) :
    stream_chat_response rid req (.ok (body ++ [fin], none)) =
      (body.map (chatChunkEvent rid req.model) ++
        [chatChunkEvent rid req.model fin, .doneSentinel], none) ∧
    ((body.map (chatChunkEvent rid req.model) ++
        [chatChunkEvent rid req.model fin, ChatStreamEvent.doneSentinel]).filter
      (fun e => e.isDoneSentinel)).length = 1 ∧
    (body.map (chatChunkEvent rid req.model) ++
        [chatChunkEvent rid req.model fin, ChatStreamEvent.doneSentinel]).getLast? =
      some .doneSentinel ∧
    stream_completion_response rid creq (.ok (bodyc ++ [finc], none)) =
      (bodyc.map (completionChunkEvent rid creq.model) ++
        [completionChunkEvent rid creq.model finc, .doneSentinel], none) ∧
    ((bodyc.map (completionChunkEvent rid creq.model) ++
        [completionChunkEvent rid creq.model finc, CompletionStreamEvent.doneSentinel]).filter
      (fun e => e.isDoneSentinel)).length = 1 ∧
    (bodyc.map (completionChunkEvent rid creq.model) ++
        [completionChunkEvent rid creq.model finc, CompletionStreamEvent.doneSentinel]).getLast? =
      some .doneSentinel := by
  have e1 : emitChatChunks rid req.model (body ++ [fin]) =
      body.map (chatChunkEvent rid req.model) ++
        [chatChunkEvent rid req.model fin, .doneSentinel] := by
    rw [emitChatChunks_append rid req.model hb]
    simp [emitChatChunks, hf]
  have e2 : emitCompletionChunks rid creq.model (bodyc ++ [finc]) =
      bodyc.map (completionChunkEvent rid creq.model) ++
        [completionChunkEvent rid creq.model finc, .doneSentinel] := by
    rw [emitCompletionChunks_append rid creq.model hbc]
    simp [emitCompletionChunks, hfc]
  refine ⟨?_, ?_, getLast_append_pair _ _ _, ?_, ?_, getLast_append_pair _ _ _⟩
  · simp [stream_chat_response, e1]
  · rw [List.filter_append, filter_isDoneSentinel_map_chat,
      List.filter_cons, chatChunkEvent_isDoneSentinel]
    simp [List.filter_cons, ChatStreamEvent.isDoneSentinel]
  · simp [stream_completion_response, e2]
  · rw [List.filter_append, filter_isDoneSentinel_map_completion,
      List.filter_cons, completionChunkEvent_isDoneSentinel]
    simp [List.filter_cons, CompletionStreamEvent.isDoneSentinel]

/-- C3 witness: a two-chunk chat stream and a two-chunk completion stream,
each ending in a done-marked chunk. -/
theorem claim_c3_witness :
    stream_chat_response "id" { model := "m", messages := [] }
        (.ok ([{ message := some { role := some "assistant", content := some "h" },
                 done := some false },
               { message := none, done := some true }], none)) =
      ([chatChunkEvent "id" "m"
          { message := some { role := some "assistant", content := some "h" },
            done := some false },
        chatChunkEvent "id" "m" { message := none, done := some true },
        .doneSentinel], none) ∧
    stream_completion_response "id" { model := "m", prompt := "p" }
        (.ok ([{ response := some "h", done := some false },
               { response := none, done := some true }], none)) =
      ([completionChunkEvent "id" "m" { response := some "h", done := some false },
        completionChunkEvent "id" "m" { response := none, done := some true },
        .doneSentinel], none) := by
  have h := claim_c3_done_sentinel_terminal "id"
    { model := "m", messages := [] } { model := "m", prompt := "p" }
    [{ message := some { role := some "assistant", content := some "h" },
       done := some false }]
    { message := none, done := some true }
    [{ response := some "h", done := some false }]
    { response := none, done := some true }
    (by decide) rfl (by decide) rfl
  exact ⟨h.1, h.2.2.2.1⟩

/-- C4: for every stream whose chunk source fails with a `ModelNotFound`
or any other `OllamaError` — including before the first emitted event —
the pipeline emits exactly one inline error event whose JSON carries only
message and type (code is absent), emits no terminal sentinel, and the
generator ends without an escaping exception. -/
theorem claim_c4_stream_error_event
    (rid : String) (req : ChatCompletionRequest) (creq : CompletionRequest)
    (chunks : List ChatChunk) (chunksc : List GenerateChunk) (e : PyExc)
    (hnd : ∀ c ∈ chunks, c.done.getD false = false)
    (hndc : ∀ c ∈ chunksc, c.done.getD false = false)
    (he : e.isOllamaError = true) :
    stream_chat_response rid req (.error e) =
      ([.errorEvent { message := e.message, type := streamErrorType e, code := none }], none) ∧
    stream_chat_response rid req (.ok (chunks, some e)) =
      (chunks.map (chatChunkEvent rid req.model) ++
        [.errorEvent { message := e.message, type := streamErrorType e, code := none }], none) ∧
    ((chunks.map (chatChunkEvent rid req.model) ++
        [ChatStreamEvent.errorEvent
          { message := e.message, type := streamErrorType e, code := none }]).filter
      (fun ev => ev.isErrorEvent)).length = 1 ∧
    ((chunks.map (chatChunkEvent rid req.model) ++
        [ChatStreamEvent.errorEvent
          { message := e.message, type := streamErrorType e, code := none }]).filter
      (fun ev => ev.isDoneSentinel)).length = 0 ∧
    stream_completion_response rid creq (.error e) =
      ([.errorEvent { message := e.message, type := streamErrorType e, code := none }], none) ∧
    stream_completion_response rid creq (.ok (chunksc, some e)) =
      (chunksc.map (completionChunkEvent rid creq.model) ++
        [.errorEvent { message := e.message, type := streamErrorType e, code := none }], none) ∧
    ((chunksc.map (completionChunkEvent rid creq.model) ++
        [CompletionStreamEvent.errorEvent
          { message := e.message, type := streamErrorType e, code := none }]).filter
      (fun ev => ev.isErrorEvent)).length = 1 ∧
    ((chunksc.map (completionChunkEvent rid creq.model) ++
        [CompletionStreamEvent.errorEvent
          { message := e.message, type := streamErrorType e, code := none }]).filter
      (fun ev => ev.isDoneSentinel)).length = 0 := by
  refine ⟨?_, ?_, ?_, ?_, ?_, ?_, ?_, ?_⟩
  · simp [stream_chat_response, chatStreamCatch_ollama [] e he]
  · simp [stream_chat_response, chatStreamCatch_ollama _ e he,
      emitChatChunks_all_notdone rid req.model hnd]
  · rw [List.filter_append, filter_isErrorEvent_map_chat]
    simp [List.filter_cons, ChatStreamEvent.isErrorEvent]
  · rw [List.filter_append, filter_isDoneSentinel_map_chat]
    simp [List.filter_cons, ChatStreamEvent.isDoneSentinel]
  · simp [stream_completion_response, completionStreamCatch_ollama [] e he]
  · simp [stream_completion_response, completionStreamCatch_ollama _ e he,
      emitCompletionChunks_all_notdone rid creq.model hndc]
  · rw [List.filter_append, filter_isErrorEvent_map_completion]
    simp [List.filter_cons, CompletionStreamEvent.isErrorEvent]
  · rw [List.filter_append, filter_isDoneSentinel_map_completion]
    simp [List.filter_cons, CompletionStreamEvent.isDoneSentinel]

/-- C4 witness: a backend error before any chunk, and the same error after
one not-done chunk, on the chat stream. -/
theorem claim_c4_witness :
    stream_chat_response "id" { model := "m", messages := [] }
        (.error (.ollamaError "boom")) =
      ([.errorEvent { message := "boom", type := "server_error", code := none }], none) ∧
    stream_chat_response "id" { model := "m", messages := [] }
        (.ok ([{ message := none, done := some false }], some (.ollamaError "boom"))) =
      ([chatChunkEvent "id" "m" { message := none, done := some false },
        .errorEvent { message := "boom", type := "server_error", code := none }], none) := by
  have h := claim_c4_stream_error_event "id"
    { model := "m", messages := [] } { model := "m", prompt := "p" }
    [{ message := none, done := some false }] [] (.ollamaError "boom")
    (by decide) (by decide) rfl
  exact ⟨h.1, h.2.1⟩

end Tensoria
